import Mathlib

/-!
Shallow embedding of `iostatserv.go` (package main): a daemon that samples
`/sys/block/<dev>/stat` counters, computes per-second rates, and serves the
latest snapshot per device as JSON.

Go `int64` arithmetic is modelled as `Int` with explicit wrapping into
`[-2^63, 2^63)` at every arithmetic step (`wrap64`); Go's integer division
truncates toward zero, which is `Int.tdiv`.  Strings are modelled on
`List Char` with structural-recursive versions of the `strings` library
functions the source calls.  `time.Duration` values are `Int` nanoseconds.
-/

namespace Iostatserv

/-- Two to the 63rd, the signed-64-bit boundary. -/
def int64Half : Int := 9223372036854775808

/-- Two to the 64th. -/
def int64Size : Int := 18446744073709551616

/-- Wrap an unbounded integer into the signed 64-bit range `[-2^63, 2^63)`,
modelling the two's-complement wrapping of Go `int64` arithmetic. -/
def wrap64 (x : Int) : Int := (x + int64Half) % int64Size - int64Half

/-- Go `int64` multiplication (wraps on overflow). -/
def goMul (a b : Int) : Int := wrap64 (a * b)

/-- Go `int64` subtraction (wraps on overflow). -/
def goSub (a b : Int) : Int := wrap64 (a - b)

/-- `int64(time.Second)`: one second in nanoseconds. -/
def nsPerSecond : Int := 1000000000

/-- A raw counter reading: the `[11]int64` produced by `readStat`,
indices in the fixed `/sys/block/<dev>/stat` field order. -/
def RawStat := Fin 11 → Int

/-- The `ioStats` struct of the source.  `Timestamp` (`time.Time` in Go) is
modelled as an abstract `Int` clock value supplied by the caller, since
`time.Now()` is ambient wall-clock state. -/
structure ioStats where
  Timestamp : Int
  ReadsPerSec : Int
  BytesReadPerSec : Int
  ReadMillis : Int
  WritesPerSec : Int
  BytesWrittenPerSec : Int
  WriteMillis : Int
  InFlight : Int
  WaitMillis : Int
deriving DecidableEq, Repr

/-- The snapshot computation inside `monitor` (iostatserv.go lines 104-114):
each field is the Go `int64` expression
`(cur[i] - prev[i]) [* 512] * int64(time.Second) / int64(sampleInterval)`,
with every `*` and `-` wrapping and `/` truncating toward zero.
`sampleInterval` is in nanoseconds. -/
def computeStats (ts : Int) (prev cur : RawStat) (sampleInterval : Int) : ioStats where
  Timestamp := ts
  ReadsPerSec := (goMul (goSub (cur 0) (prev 0)) nsPerSecond).tdiv sampleInterval
  BytesReadPerSec := (goMul (goMul (goSub (cur 2) (prev 2)) 512) nsPerSecond).tdiv sampleInterval
  ReadMillis := (goMul (goSub (cur 3) (prev 3)) nsPerSecond).tdiv sampleInterval
  WritesPerSec := (goMul (goSub (cur 4) (prev 4)) nsPerSecond).tdiv sampleInterval
  BytesWrittenPerSec := (goMul (goMul (goSub (cur 6) (prev 6)) 512) nsPerSecond).tdiv sampleInterval
  WriteMillis := (goMul (goSub (cur 7) (prev 7)) nsPerSecond).tdiv sampleInterval
  InFlight := cur 8
  WaitMillis := (goMul (goSub (cur 10) (prev 10)) nsPerSecond).tdiv sampleInterval

/-- The `previous` reading of the spec's concrete scenario. -/
def prevScenario : RawStat := ![100, 0, 2000, 50, 40, 0, 800, 20, 3, 70, 90]

/-- The `current` reading of the spec's concrete scenario. -/
def curScenario : RawStat := ![110, 0, 2200, 55, 44, 0, 880, 22, 5, 77, 99]

/-- The all-zero reading. -/
def zeroStat : RawStat := ![0, 0, 0, 0, 0, 0, 0, 0, 0, 0, 0]

/-- A reading with a single read I/O and nothing else. -/
def oneReadStat : RawStat := ![1, 0, 0, 0, 0, 0, 0, 0, 0, 0, 0]

/-- A reading with two read I/Os and nothing else. -/
def twoReadStat : RawStat := ![2, 0, 0, 0, 0, 0, 0, 0, 0, 0, 0]

/-- A reading whose read-I/O delta against zero is `2^54`, large enough that
multiplying by `int64(time.Second)` overflows a signed 64-bit integer. -/
def overflowStat : RawStat := ![18014398509481984, 0, 0, 0, 0, 0, 0, 0, 0, 0, 0]

/-- `wrap64` is the identity on values already in the signed 64-bit range. -/
theorem wrap64_eq_self (x : Int) (h1 : -int64Half ≤ x) (h2 : x < int64Half) :
    wrap64 x = x := by
  unfold wrap64 int64Half int64Size at *
  rw [Int.emod_eq_of_lt (by omega) (by omega)]
  omega

/-- Dividing an exactly-divisible numerator by a doubled positive divisor
yields exactly half the quotient. -/
theorem tdiv_double_halves (X S : Int) (hS : 0 < S) (hdvd : 2 * S ∣ X) :
    2 * X.tdiv (2 * S) = X.tdiv S := by
  obtain ⟨k, hk⟩ := hdvd
  subst hk
  rw [Int.mul_tdiv_cancel_left _ (by omega : (2 : Int) * S ≠ 0)]
  rw [show (2 : Int) * S * k = S * (2 * k) by ring,
    Int.mul_tdiv_cancel_left _ (by omega : S ≠ 0)]

/-- A non-sector rate field is nonnegative when the counter did not decrease
and the product with `nsPerSecond` stays below the overflow boundary. -/
theorem plain_rate_nonneg (p c S : Int) (hpc : p ≤ c)
    (hb : (c - p) * nsPerSecond < int64Half) (hS : 0 < S) :
    0 ≤ (goMul (goSub c p) nsPerSecond).tdiv S := by
  have hd : 0 ≤ c - p := by omega
  have hstep : c - p ≤ (c - p) * nsPerSecond := by
    calc c - p = (c - p) * 1 := by ring
    _ ≤ (c - p) * nsPerSecond := by
        apply mul_le_mul_of_nonneg_left _ hd
        norm_num [nsPerSecond]
  have hhalf : (0 : Int) < int64Half := by norm_num [int64Half]
  have hw1 : goSub c p = c - p :=
    wrap64_eq_self _ (by omega) (by omega)
  have hns : (0 : Int) ≤ nsPerSecond := by norm_num [nsPerSecond]
  have hprod : 0 ≤ (c - p) * nsPerSecond := mul_nonneg hd hns
  have hw2 : goMul (c - p) nsPerSecond = (c - p) * nsPerSecond := by
    apply wrap64_eq_self
    · omega
    · exact hb
  rw [goSub] at hw1
  rw [goMul] at hw2
  unfold goMul goSub
  rw [hw1, hw2]
  exact Int.tdiv_nonneg hprod (le_of_lt hS)

/-- A sector rate field is nonnegative when the counter did not decrease and
the product with `512 * nsPerSecond` stays below the overflow boundary. -/
theorem sector_rate_nonneg (p c S : Int) (hpc : p ≤ c)
    (hb : (c - p) * 512 * nsPerSecond < int64Half) (hS : 0 < S) :
    0 ≤ (goMul (goMul (goSub c p) 512) nsPerSecond).tdiv S := by
  have hd : 0 ≤ c - p := by omega
  have hstep1 : c - p ≤ (c - p) * 512 := by
    calc c - p = (c - p) * 1 := by ring
    _ ≤ (c - p) * 512 := by
        apply mul_le_mul_of_nonneg_left _ hd
        norm_num
  have hd512 : 0 ≤ (c - p) * 512 := mul_nonneg hd (by norm_num)
  have hns : (0 : Int) ≤ nsPerSecond := by norm_num [nsPerSecond]
  have hprod : 0 ≤ (c - p) * 512 * nsPerSecond := mul_nonneg hd512 hns
  have hstep2 : (c - p) * 512 ≤ (c - p) * 512 * nsPerSecond := by
    calc (c - p) * 512 = (c - p) * 512 * 1 := by ring
    _ ≤ (c - p) * 512 * nsPerSecond := by
        apply mul_le_mul_of_nonneg_left _ hd512
        norm_num [nsPerSecond]
  have hhalf : (0 : Int) < int64Half := by norm_num [int64Half]
  have hw1 : goSub c p = c - p :=
    wrap64_eq_self _ (by omega) (by omega)
  have hw2 : goMul (c - p) 512 = (c - p) * 512 := by
    apply wrap64_eq_self
    · omega
    · omega
  have hw3 : goMul ((c - p) * 512) nsPerSecond = (c - p) * 512 * nsPerSecond := by
    apply wrap64_eq_self
    · omega
    · exact hb
  rw [goSub] at hw1
  rw [goMul] at hw2 hw3
  unfold goMul goSub
  rw [hw1, hw2, hw3]
  exact Int.tdiv_nonneg hprod (le_of_lt hS)

/-- State of one device's `monitor` goroutine together with its
`atomic.Value` publication cell: `prev` is the retained baseline reading,
`published` the last stored snapshot (`none` models the nil `atomic.Value`
before any `Store`).  Snapshot timestamps are abstracted to `0` since
`time.Now()` is ambient state. -/
structure MonitorState where
  prev : RawStat
  published : Option ioStats

/-- `monitor` before entering its loop: the first (baseline) `readStat`
result is retained as `prev`; nothing is published. -/
def monitorInit (first : RawStat) : MonitorState :=
  { prev := first, published := none }

/-- One iteration of the `monitor` loop: read `cur`, compute the snapshot
against the retained baseline, `Store` it, and retain `cur`. -/
def monitorTick (S : Int) (st : MonitorState) (cur : RawStat) : MonitorState :=
  { prev := cur, published := some (computeStats 0 st.prev cur S) }

/-- The monitor state after the baseline read `first` and the successive
loop-iteration reads `rest`, in order. -/
def monitorRun (S : Int) (first : RawStat) (rest : List RawStat) : MonitorState :=
  rest.foldl (monitorTick S) (monitorInit first)

/-- The baseline retained by the loop is always the most recent reading. -/
theorem foldl_monitorTick_prev (S : Int) (st : MonitorState)
    (rest : List RawStat) :
    (rest.foldl (monitorTick S) st).prev = rest.getLastD st.prev := by
  induction rest generalizing st with
  | nil => rfl
  | cons c cs ih =>
    rw [List.foldl_cons, List.getLastD_cons]
    exact ih (monitorTick S st c)

/-- The retained baseline after a run is the most recent reading. -/
theorem monitorRun_prev (S : Int) (first : RawStat) (rest : List RawStat) :
    (monitorRun S first rest).prev = rest.getLastD first :=
  foldl_monitorTick_prev S (monitorInit first) rest

end Iostatserv

namespace Iostatserv

/-- Decimal digit accumulator for the `%d` scan: consumes the characters,
failing on the first non-digit. -/
def decDigitsAux : List Char → Nat → Option Nat
  | [], acc => some acc
  | c :: cs, acc =>
    if c.isDigit then decDigitsAux cs (acc * 10 + (c.toNat - 48)) else none

/-- The integer syntax accepted by one `fmt.Fscanf(r, "%d")` conversion on a
whitespace-delimited token: an optional sign followed by at least one decimal
digit, with values outside the signed 64-bit range rejected (Go reports a
range error and `readStat` panics on it). -/
def parseDec : List Char → Option Int
  | [] => none
  | '+' :: [] => none
  | '-' :: [] => none
  | '+' :: c :: cs =>
    (decDigitsAux (c :: cs) 0).bind fun n =>
      if (n : Int) < int64Half then some (n : Int) else none
  | '-' :: c :: cs =>
    (decDigitsAux (c :: cs) 0).bind fun n =>
      if (n : Int) ≤ int64Half then some (-(n : Int)) else none
  | c :: cs =>
    (decDigitsAux (c :: cs) 0).bind fun n =>
      if (n : Int) < int64Half then some (n : Int) else none

/-- The scanning loop of `readStat` over the whitespace-separated tokens of
the input: read `n` integers in order, returning them with the unread
remainder of the token stream.  A failed conversion makes `fmt.Fscanf`
return an error and `readStat` panic, modelled as `none` (no value returned,
nothing published). -/
def scanInts : Nat → List (List Char) → Option (List Int × List (List Char))
  | 0, ts => some ([], ts)
  | _ + 1, [] => none
  | n + 1, t :: ts =>
    match parseDec t with
    | none => none
    | some v =>
      match scanInts n ts with
      | none => none
      | some (vs, rest) => some (v :: vs, rest)

/-- `readStat` (iostatserv.go lines 121-130): eleven `%d` conversions in
fixed field order. -/
def readStat (ts : List (List Char)) : Option (List Int × List (List Char)) :=
  scanInts 11 ts

/-- Parse every token of a list, failing if any fails: the success condition
for a prefix of the token stream. -/
def parseAll : List (List Char) → Option (List Int)
  | [] => some []
  | t :: ts =>
    match parseDec t, parseAll ts with
    | some v, some vs => some (v :: vs)
    | _, _ => none

/-- Scanning `n` integers fails when fewer than `n` tokens remain. -/
theorem scanInts_none_of_short (n : Nat) (ts : List (List Char))
    (h : ts.length < n) : scanInts n ts = none := by
  induction n generalizing ts with
  | zero => omega
  | succ n ih =>
    cases ts with
    | nil => rfl
    | cons t ts =>
      rw [scanInts]
      cases parseDec t with
      | none => rfl
      | some v =>
        rw [ih ts (by simpa using h)]

/-- Scanning `n` integers fails when any of the first `n` tokens is not a
parseable integer. -/
theorem scanInts_none_of_bad (n : Nat) (ts : List (List Char))
    (t : List Char) (hmem : t ∈ ts.take n) (hbad : parseDec t = none) :
    scanInts n ts = none := by
  induction n generalizing ts with
  | zero => simp at hmem
  | succ n ih =>
    cases ts with
    | nil => rfl
    | cons u ts =>
      rw [List.take_succ_cons, List.mem_cons] at hmem
      rw [scanInts]
      rcases hmem with heq | hmem
      · subst heq
        rw [hbad]
      · cases hu : parseDec u with
        | none => rfl
        | some v => rw [ih ts hmem]

/-- Scanning `n` integers succeeds exactly on the first `n` tokens when they
all parse, leaving the remainder untouched. -/
theorem scanInts_some_of_ok (n : Nat) (ts : List (List Char))
    (vals : List Int) (hlen : n ≤ ts.length)
    (hok : parseAll (ts.take n) = some vals) :
    scanInts n ts = some (vals, ts.drop n) := by
  induction n generalizing ts vals with
  | zero =>
    simp [parseAll] at hok
    simp [scanInts, ← hok]
  | succ n ih =>
    cases ts with
    | nil => simp at hlen
    | cons t ts =>
      rw [List.take_succ_cons, parseAll] at hok
      rw [scanInts, List.drop_succ_cons]
      cases hp : parseDec t with
      | none => rw [hp] at hok; simp at hok
      | some v =>
        rw [hp] at hok
        cases ha : parseAll (ts.take n) with
        | none => rw [ha] at hok; simp at hok
        | some vs =>
          rw [ha] at hok
          simp only [Option.some.injEq] at hok
          rw [ih ts vs (by simpa using hlen) ha, ← hok]

end Iostatserv

namespace Iostatserv

/-- Whitespace as trimmed by `strings.TrimSpace` (the ASCII cases that arise
in flag values). -/
def isSpaceChar (c : Char) : Bool :=
  c = ' ' || c = '\t' || c = '\n' || c = '\r'

/-- `strings.TrimSpace` on the character list: drop leading and trailing
whitespace. -/
def trimSpace (cs : List Char) : List Char :=
  ((cs.dropWhile isSpaceChar).reverse.dropWhile isSpaceChar).reverse

/-- `strings.Split(s, ",")` on the character list: the groups between the
commas, in order; splitting the empty string yields one empty group. -/
def splitComma : List Char → List (List Char)
  | [] => [[]]
  | c :: rest =>
    match splitComma rest with
    | [] => [[]]
    | g :: gs => if c = ',' then [] :: g :: gs else (c :: g) :: gs

/-- The `sampleInterval` normalization in `main` (iostatserv.go lines 43-45):
a non-positive duration falls back to one second.  Durations are `Int`
nanoseconds. -/
def normalizeSampleInterval (d : Int) : Int :=
  if d ≤ 0 then nsPerSecond else d

/-- The `httpPort` normalization in `main` (iostatserv.go lines 41 and
46-48): trim whitespace, then prepend the colon port separator unless the
address already begins with one. -/
def normalizeHttpPort (cs : List Char) : List Char :=
  let t := trimSpace cs
  match t with
  | ':' :: rest => ':' :: rest
  | other => ':' :: other

/-- The `devices` normalization in `main` (iostatserv.go lines 42, 49-51 and
53): trim whitespace, fall back to `"sda"` when empty, split on commas. -/
def effectiveDevices (cs : List Char) : List (List Char) :=
  let t := trimSpace cs
  let t := if t = [] then ['s', 'd', 'a'] else t
  splitComma t

end Iostatserv

namespace Iostatserv

/-- An HTTP response as produced by `statsHandlerAsJSON`: `net/http` sends
status 200 implicitly on the first `Write` when `WriteHeader` was never
called, and the handler adds one Content-Type header. -/
structure HttpResponse where
  status : Nat
  contentType : List Char
  body : List Char
deriving DecidableEq

/-- Decimal rendering of an integer JSON value. -/
def intJson (n : Int) : List Char := (toString n).data

/-- `encoding/json` marshalling of one `ioStats` value, fields in struct
order under their Go field names.  The `time.Time` timestamp is rendered
through its abstract `Int` clock value. -/
def statsJson (s : ioStats) : List Char :=
  ['\x7b'] ++ "\"Timestamp\":".data ++ intJson s.Timestamp
    ++ ",\"ReadsPerSec\":".data ++ intJson s.ReadsPerSec
    ++ ",\"BytesReadPerSec\":".data ++ intJson s.BytesReadPerSec
    ++ ",\"ReadMillis\":".data ++ intJson s.ReadMillis
    ++ ",\"WritesPerSec\":".data ++ intJson s.WritesPerSec
    ++ ",\"BytesWrittenPerSec\":".data ++ intJson s.BytesWrittenPerSec
    ++ ",\"WriteMillis\":".data ++ intJson s.WriteMillis
    ++ ",\"InFlight\":".data ++ intJson s.InFlight
    ++ ",\"WaitMillis\":".data ++ intJson s.WaitMillis
    ++ ['\x7d']

/-- `encoding/json` marshalling of the device-to-stats map: a JSON object
with one member per entry, in the order of the given association list
(abstracting Go's map iteration and `Marshal`'s key sorting). -/
def jsonBody (entries : List (List Char × ioStats)) : List Char :=
  ['\x7b']
    ++ List.intercalate [',']
        (entries.map fun e => '"' :: e.1 ++ "\":".data ++ statsJson e.2)
    ++ ['\x7d']

/-- `statsHandlerAsJSON` (iostatserv.go lines 132-144): collect, for every
registered device, the last published snapshot if there is one (a nil
`atomic.Value` load is skipped), marshal the resulting map, and write it
with Content-Type `application/json`. -/
def statsHandlerAsJSON (store : List (List Char × Option ioStats)) :
    HttpResponse where
  status := 200
  contentType := "application/json".data
  body := jsonBody (store.filterMap fun p => p.2.map fun s => (p.1, s))

end Iostatserv

namespace Iostatserv

/-- C1: with `previous = [100,0,2000,50,40,0,800,20,3,70,90]`,
`current = [110,0,2200,55,44,0,880,22,5,77,99]` and a configured interval of
one second, the computed snapshot has reads/sec 10, bytes-read/sec 102400,
read-wait-ms 5, writes/sec 4, bytes-written/sec 40960, write-wait-ms 2,
in-flight 5 and queue-wait-ms 9. -/
theorem snapshot_concrete_scenario :
    (computeStats 0 prevScenario curScenario nsPerSecond).ReadsPerSec = 10 ∧
    (computeStats 0 prevScenario curScenario nsPerSecond).BytesReadPerSec = 102400 ∧
    (computeStats 0 prevScenario curScenario nsPerSecond).ReadMillis = 5 ∧
    (computeStats 0 prevScenario curScenario nsPerSecond).WritesPerSec = 4 ∧
    (computeStats 0 prevScenario curScenario nsPerSecond).BytesWrittenPerSec = 40960 ∧
    (computeStats 0 prevScenario curScenario nsPerSecond).WriteMillis = 2 ∧
    (computeStats 0 prevScenario curScenario nsPerSecond).InFlight = 5 ∧
    (computeStats 0 prevScenario curScenario nsPerSecond).WaitMillis = 9 := by
  decide

/-- C2 counterexample: with a read-I/O delta of 1 and interval 1 s the
reads/sec field is 1, but at interval 2 s integer division truncates it to 0,
which is not exactly half of 1. -/
theorem interval_halving_counterexample :
    ¬ (2 * (computeStats 0 zeroStat oneReadStat (2 * nsPerSecond)).ReadsPerSec =
        (computeStats 0 zeroStat oneReadStat nsPerSecond).ReadsPerSec) := by
  decide

/-- C2 (amended): for a positive interval `S`, doubling the interval while
holding the counter deltas fixed exactly halves every rate field, provided
each field's (wrapped) numerator is exactly divisible by `2 * S`, so that the
truncating integer division loses nothing. -/
theorem interval_halving_amended (ts : Int) (prev cur : RawStat) (S : Int)
    (hS : 0 < S)
    (h0 : 2 * S ∣ goMul (goSub (cur 0) (prev 0)) nsPerSecond)
    (h2 : 2 * S ∣ goMul (goMul (goSub (cur 2) (prev 2)) 512) nsPerSecond)
    (h3 : 2 * S ∣ goMul (goSub (cur 3) (prev 3)) nsPerSecond)
    (h4 : 2 * S ∣ goMul (goSub (cur 4) (prev 4)) nsPerSecond)
    (h6 : 2 * S ∣ goMul (goMul (goSub (cur 6) (prev 6)) 512) nsPerSecond)
    (h7 : 2 * S ∣ goMul (goSub (cur 7) (prev 7)) nsPerSecond)
    (h10 : 2 * S ∣ goMul (goSub (cur 10) (prev 10)) nsPerSecond) :
    2 * (computeStats ts prev cur (2 * S)).ReadsPerSec =
        (computeStats ts prev cur S).ReadsPerSec ∧
    2 * (computeStats ts prev cur (2 * S)).BytesReadPerSec =
        (computeStats ts prev cur S).BytesReadPerSec ∧
    2 * (computeStats ts prev cur (2 * S)).ReadMillis =
        (computeStats ts prev cur S).ReadMillis ∧
    2 * (computeStats ts prev cur (2 * S)).WritesPerSec =
        (computeStats ts prev cur S).WritesPerSec ∧
    2 * (computeStats ts prev cur (2 * S)).BytesWrittenPerSec =
        (computeStats ts prev cur S).BytesWrittenPerSec ∧
    2 * (computeStats ts prev cur (2 * S)).WriteMillis =
        (computeStats ts prev cur S).WriteMillis ∧
    2 * (computeStats ts prev cur (2 * S)).WaitMillis =
        (computeStats ts prev cur S).WaitMillis :=
  ⟨tdiv_double_halves _ _ hS h0, tdiv_double_halves _ _ hS h2,
   tdiv_double_halves _ _ hS h3, tdiv_double_halves _ _ hS h4,
   tdiv_double_halves _ _ hS h6, tdiv_double_halves _ _ hS h7,
   tdiv_double_halves _ _ hS h10⟩

/-- C2 witness: the amended halving law at a concrete input (read-I/O delta 2,
interval 1 s doubled to 2 s). -/
theorem interval_halving_amended_witness :
    2 * (computeStats 0 zeroStat twoReadStat (2 * nsPerSecond)).ReadsPerSec =
        (computeStats 0 zeroStat twoReadStat nsPerSecond).ReadsPerSec ∧
    2 * (computeStats 0 zeroStat twoReadStat (2 * nsPerSecond)).BytesReadPerSec =
        (computeStats 0 zeroStat twoReadStat nsPerSecond).BytesReadPerSec ∧
    2 * (computeStats 0 zeroStat twoReadStat (2 * nsPerSecond)).ReadMillis =
        (computeStats 0 zeroStat twoReadStat nsPerSecond).ReadMillis ∧
    2 * (computeStats 0 zeroStat twoReadStat (2 * nsPerSecond)).WritesPerSec =
        (computeStats 0 zeroStat twoReadStat nsPerSecond).WritesPerSec ∧
    2 * (computeStats 0 zeroStat twoReadStat (2 * nsPerSecond)).BytesWrittenPerSec =
        (computeStats 0 zeroStat twoReadStat nsPerSecond).BytesWrittenPerSec ∧
    2 * (computeStats 0 zeroStat twoReadStat (2 * nsPerSecond)).WriteMillis =
        (computeStats 0 zeroStat twoReadStat nsPerSecond).WriteMillis ∧
    2 * (computeStats 0 zeroStat twoReadStat (2 * nsPerSecond)).WaitMillis =
        (computeStats 0 zeroStat twoReadStat nsPerSecond).WaitMillis :=
  interval_halving_amended 0 zeroStat twoReadStat nsPerSecond (by decide)
    (by decide) (by decide) (by decide) (by decide) (by decide) (by decide)
    (by decide)

/-- C3 counterexample: with `previous` all zero and a `current` whose read-I/O
field is `2^54` (all monotonic fields ≥ their previous values), the product
with `int64(time.Second)` wraps modulo `2^64` to `-2^63` and the computed
reads/sec is negative. -/
theorem rate_nonneg_counterexample :
    (∀ i : Fin 11, i.val ≠ 8 → zeroStat i ≤ overflowStat i) ∧
    (computeStats 0 zeroStat overflowStat nsPerSecond).ReadsPerSec < 0 := by
  decide

/-- C3 (amended): if every monotonic field of `current` is at least the
corresponding field of `previous`, the interval is positive, and each rate
field's delta times its multiplier (`512 * 10^9` for sector fields, `10^9`
otherwise) stays below `2^63` (no 64-bit overflow), then every rate field of
the computed snapshot is nonnegative. -/
theorem rate_nonneg_amended (ts : Int) (prev cur : RawStat) (S : Int)
    (hS : 0 < S)
    (hmono : ∀ i : Fin 11, i.val ≠ 8 → prev i ≤ cur i)
    (hb0 : (cur 0 - prev 0) * nsPerSecond < int64Half)
    (hb2 : (cur 2 - prev 2) * 512 * nsPerSecond < int64Half)
    (hb3 : (cur 3 - prev 3) * nsPerSecond < int64Half)
    (hb4 : (cur 4 - prev 4) * nsPerSecond < int64Half)
    (hb6 : (cur 6 - prev 6) * 512 * nsPerSecond < int64Half)
    (hb7 : (cur 7 - prev 7) * nsPerSecond < int64Half)
    (hb10 : (cur 10 - prev 10) * nsPerSecond < int64Half) :
    0 ≤ (computeStats ts prev cur S).ReadsPerSec ∧
    0 ≤ (computeStats ts prev cur S).BytesReadPerSec ∧
    0 ≤ (computeStats ts prev cur S).ReadMillis ∧
    0 ≤ (computeStats ts prev cur S).WritesPerSec ∧
    0 ≤ (computeStats ts prev cur S).BytesWrittenPerSec ∧
    0 ≤ (computeStats ts prev cur S).WriteMillis ∧
    0 ≤ (computeStats ts prev cur S).WaitMillis :=
  ⟨plain_rate_nonneg _ _ _ (hmono 0 (by decide)) hb0 hS,
   sector_rate_nonneg _ _ _ (hmono 2 (by decide)) hb2 hS,
   plain_rate_nonneg _ _ _ (hmono 3 (by decide)) hb3 hS,
   plain_rate_nonneg _ _ _ (hmono 4 (by decide)) hb4 hS,
   sector_rate_nonneg _ _ _ (hmono 6 (by decide)) hb6 hS,
   plain_rate_nonneg _ _ _ (hmono 7 (by decide)) hb7 hS,
   plain_rate_nonneg _ _ _ (hmono 10 (by decide)) hb10 hS⟩

/-- C3 witness: the amended nonnegativity law at the spec's concrete scenario
readings with interval 1 s. -/
theorem rate_nonneg_amended_witness :
    0 ≤ (computeStats 0 prevScenario curScenario nsPerSecond).ReadsPerSec ∧
    0 ≤ (computeStats 0 prevScenario curScenario nsPerSecond).BytesReadPerSec ∧
    0 ≤ (computeStats 0 prevScenario curScenario nsPerSecond).ReadMillis ∧
    0 ≤ (computeStats 0 prevScenario curScenario nsPerSecond).WritesPerSec ∧
    0 ≤ (computeStats 0 prevScenario curScenario nsPerSecond).BytesWrittenPerSec ∧
    0 ≤ (computeStats 0 prevScenario curScenario nsPerSecond).WriteMillis ∧
    0 ≤ (computeStats 0 prevScenario curScenario nsPerSecond).WaitMillis :=
  rate_nonneg_amended 0 prevScenario curScenario nsPerSecond (by decide)
    (by decide) (by decide) (by decide) (by decide) (by decide) (by decide)
    (by decide) (by decide)

/-- C5: the in-flight field of the computed snapshot is exactly `current[8]`,
independent of `previous` (a pass-through gauge, not a delta). -/
theorem inflight_passthrough_gauge (ts : Int) (prev cur : RawStat) (S : Int) :
    (computeStats ts prev cur S).InFlight = cur 8 ∧
    ∀ prev' : RawStat,
      (computeStats ts prev' cur S).InFlight =
        (computeStats ts prev cur S).InFlight :=
  ⟨rfl, fun _ => rfl⟩

/-- C10: two pairs of readings that agree on indices 0, 2, 3, 4, 6, 7, 8 and
10 but differ arbitrarily on the unused indices 1 (read-merges), 5
(write-merges) and 9 (io-ticks) yield snapshots identical in every field
except the wall-clock timestamp. -/
theorem unused_fields_noninterference (ts1 ts2 S : Int)
    (prev1 prev2 cur1 cur2 : RawStat)
    (h : ∀ i : Fin 11, i.val ≠ 1 → i.val ≠ 5 → i.val ≠ 9 →
      prev1 i = prev2 i ∧ cur1 i = cur2 i) :
    (computeStats ts1 prev1 cur1 S).ReadsPerSec =
        (computeStats ts2 prev2 cur2 S).ReadsPerSec ∧
    (computeStats ts1 prev1 cur1 S).BytesReadPerSec =
        (computeStats ts2 prev2 cur2 S).BytesReadPerSec ∧
    (computeStats ts1 prev1 cur1 S).ReadMillis =
        (computeStats ts2 prev2 cur2 S).ReadMillis ∧
    (computeStats ts1 prev1 cur1 S).WritesPerSec =
        (computeStats ts2 prev2 cur2 S).WritesPerSec ∧
    (computeStats ts1 prev1 cur1 S).BytesWrittenPerSec =
        (computeStats ts2 prev2 cur2 S).BytesWrittenPerSec ∧
    (computeStats ts1 prev1 cur1 S).WriteMillis =
        (computeStats ts2 prev2 cur2 S).WriteMillis ∧
    (computeStats ts1 prev1 cur1 S).InFlight =
        (computeStats ts2 prev2 cur2 S).InFlight ∧
    (computeStats ts1 prev1 cur1 S).WaitMillis =
        (computeStats ts2 prev2 cur2 S).WaitMillis := by
  obtain ⟨hp0, hc0⟩ := h 0 (by decide) (by decide) (by decide)
  obtain ⟨hp2, hc2⟩ := h 2 (by decide) (by decide) (by decide)
  obtain ⟨hp3, hc3⟩ := h 3 (by decide) (by decide) (by decide)
  obtain ⟨hp4, hc4⟩ := h 4 (by decide) (by decide) (by decide)
  obtain ⟨hp6, hc6⟩ := h 6 (by decide) (by decide) (by decide)
  obtain ⟨hp7, hc7⟩ := h 7 (by decide) (by decide) (by decide)
  obtain ⟨hp8, hc8⟩ := h 8 (by decide) (by decide) (by decide)
  obtain ⟨hp10, hc10⟩ := h 10 (by decide) (by decide) (by decide)
  refine ⟨?_, ?_, ?_, ?_, ?_, ?_, ?_, ?_⟩ <;>
    simp [computeStats, hp0, hc0, hp2, hc2, hp3, hc3, hp4, hc4, hp6, hc6,
      hp7, hc7, hp8, hc8, hp10, hc10]

/-- Readings that differ from the scenario readings only in the unused
indices 1, 5 and 9 of `previous`. -/
def prevScenarioNoise : RawStat := ![100, 7, 2000, 50, 40, 8, 800, 20, 3, 71, 90]

/-- Readings that differ from the scenario readings only in the unused
indices 1, 5 and 9 of `current`. -/
def curScenarioNoise : RawStat := ![110, 9, 2200, 55, 44, 1, 880, 22, 5, 78, 99]

/-- C10 witness: noninterference at the concrete scenario readings against
noisy variants that differ only at indices 1, 5 and 9. -/
theorem unused_fields_noninterference_witness :
    (computeStats 0 prevScenario curScenario nsPerSecond).ReadsPerSec =
        (computeStats 1 prevScenarioNoise curScenarioNoise nsPerSecond).ReadsPerSec ∧
    (computeStats 0 prevScenario curScenario nsPerSecond).BytesReadPerSec =
        (computeStats 1 prevScenarioNoise curScenarioNoise nsPerSecond).BytesReadPerSec ∧
    (computeStats 0 prevScenario curScenario nsPerSecond).ReadMillis =
        (computeStats 1 prevScenarioNoise curScenarioNoise nsPerSecond).ReadMillis ∧
    (computeStats 0 prevScenario curScenario nsPerSecond).WritesPerSec =
        (computeStats 1 prevScenarioNoise curScenarioNoise nsPerSecond).WritesPerSec ∧
    (computeStats 0 prevScenario curScenario nsPerSecond).BytesWrittenPerSec =
        (computeStats 1 prevScenarioNoise curScenarioNoise nsPerSecond).BytesWrittenPerSec ∧
    (computeStats 0 prevScenario curScenario nsPerSecond).WriteMillis =
        (computeStats 1 prevScenarioNoise curScenarioNoise nsPerSecond).WriteMillis ∧
    (computeStats 0 prevScenario curScenario nsPerSecond).InFlight =
        (computeStats 1 prevScenarioNoise curScenarioNoise nsPerSecond).InFlight ∧
    (computeStats 0 prevScenario curScenario nsPerSecond).WaitMillis =
        (computeStats 1 prevScenarioNoise curScenarioNoise nsPerSecond).WaitMillis :=
  unused_fields_noninterference 0 1 nsPerSecond prevScenario prevScenarioNoise
    curScenario curScenarioNoise (by decide)

/-- C4: the baseline (first) read is never published — after only one read
the store still holds nothing — and after every subsequent read the store
holds exactly one snapshot, the one computed from the device's last two
readings, until the next publish replaces it. -/
theorem store_requires_two_reads (S : Int) (first r : RawStat)
    (rest : List RawStat) :
    (monitorRun S first []).published = none ∧
    (monitorRun S first (rest ++ [r])).published =
      some (computeStats 0 (rest.getLastD first) r S) := by
  refine ⟨rfl, ?_⟩
  have h := monitorRun_prev S first rest
  rw [monitorRun] at h ⊢
  rw [List.foldl_append, List.foldl_cons, List.foldl_nil, monitorTick, h]

/-- C6: `readStat` fails — no value is returned and no partial reading can
be published, modelling the Go panic — whenever fewer than 11 tokens are
present in the input or any of the first 11 tokens is not parseable as an
integer. -/
theorem readStat_fails_on_bad_input (tokens : List (List Char))
    (h : tokens.length < 11 ∨ ∃ t ∈ tokens.take 11, parseDec t = none) :
    readStat tokens = none := by
  rcases h with hshort | ⟨t, hmem, hbad⟩
  · exact scanInts_none_of_short 11 tokens hshort
  · exact scanInts_none_of_bad 11 tokens t hmem hbad

/-- An input with only two integer tokens. -/
def shortTokens : List (List Char) := [['1'], ['2']]

/-- C6 witness: `readStat` fails on a two-token input. -/
theorem readStat_fails_witness :
    shortTokens.length < 11 ∧ readStat shortTokens = none :=
  ⟨by decide, readStat_fails_on_bad_input shortTokens (Or.inl (by decide))⟩

/-- C9: on an input whose first 11 whitespace-separated tokens all parse as
integers, `readStat` succeeds and returns exactly those first 11, leaving
any trailing tokens unread and unvalidated. -/
theorem readStat_consumes_first_eleven (tokens : List (List Char))
    (vals : List Int) (hlen : 11 ≤ tokens.length)
    (hok : parseAll (tokens.take 11) = some vals) :
    readStat tokens = some (vals, tokens.drop 11) :=
  scanInts_some_of_ok 11 tokens vals hlen hok

/-- Twelve tokens: eleven integers followed by a non-integer token. -/
def twelveTokens : List (List Char) :=
  [['1'], ['2'], ['3'], ['4'], ['5'], ['6'], ['7'], ['8'], ['9'],
   ['1', '0'], ['1', '1'], ['x']]

/-- C9 witness: `readStat` returns the first eleven integers and leaves the
trailing non-integer token unread and unvalidated. -/
theorem readStat_consumes_witness :
    readStat twelveTokens =
      some ([1, 2, 3, 4, 5, 6, 7, 8, 9, 10, 11], [['x']]) :=
  readStat_consumes_first_eleven twelveTokens
    [1, 2, 3, 4, 5, 6, 7, 8, 9, 10, 11] (by decide) (by decide)

/-- C7: startup normalization — a non-positive sample interval falls back to
the one-second default, an empty device-list string yields the single
default device `sda`, and a listen address given as a bare port number is
normalized by prepending the colon port separator. -/
theorem config_normalization :
    (∀ d : Int, d ≤ 0 → normalizeSampleInterval d = nsPerSecond) ∧
    effectiveDevices [] = [['s', 'd', 'a']] ∧
    normalizeHttpPort ['9', '0', '9', '0'] = [':', '9', '0', '9', '0'] := by
  refine ⟨fun d hd => ?_, by decide, by decide⟩
  rw [normalizeSampleInterval, if_pos hd]

/-- C7 witness: the interval fallback at the concrete non-positive value 0. -/
theorem config_normalization_witness :
    (0 : Int) ≤ 0 ∧ normalizeSampleInterval 0 = nsPerSecond :=
  ⟨le_refl 0, config_normalization.1 0 (le_refl 0)⟩

/-- C8: when no device has a published snapshot yet, the handler returns
status 200 with Content-Type `application/json` and body exactly the empty
JSON object — devices without a snapshot are omitted, not errors. -/
theorem empty_store_returns_empty_object
    (store : List (List Char × Option ioStats))
    (h : ∀ p ∈ store, p.2 = none) :
    statsHandlerAsJSON store =
      ⟨200, "application/json".data, ['\x7b', '\x7d']⟩ := by
  have hnil : (store.filterMap fun p => p.2.map fun s => (p.1, s)) = [] := by
    rw [List.filterMap_eq_nil_iff]
    intro p hp
    rw [h p hp]
    rfl
  simp only [statsHandlerAsJSON, hnil]
  rfl

/-- C8 witness: the handler output for a one-device registry whose device
has no snapshot yet. -/
theorem empty_store_witness :
    statsHandlerAsJSON [(['s', 'd', 'a'], none)] =
      ⟨200, "application/json".data, ['\x7b', '\x7d']⟩ :=
  empty_store_returns_empty_object [(['s', 'd', 'a'], none)] (by decide)

end Iostatserv
